import Mathlib

/-!
Shallow embedding of the bevy_net easy-sockets engine:
  - crates/bevy_net/src/easy_sockets/socket_manager.rs
    (OwnedBuffer, SocketEntry, SocketManger)
  - crates/bevy_net/src/easy_sockets/net_buffer_types/mod.rs
    (TcpStreamBuffer, PeakIter)
  - crates/bevy_net/src/quic.rs (QuinnPoller)

Conventions of the embedding:
  - Bytes are Nat (no arithmetic is ever performed on them).
  - The OS socket is a deterministic oracle: a script holding the outcome of
    each write_vectored call in order plus the outcome of the read_to_end
    call of the cycle.
  - A weak reference (Weak<SpinLock<B>>) is an Option B: some b means
    upgrade() succeeds and yields the buffer value, none means the sole
    OwnedBuffer owner has dropped its handle and upgrade() fails.
  - Locks (SpinLock) are no-ops in this sequential embedding: the update
    cycle holds the lock for the whole buffer update, so its body is a pure
    state transformer.
  - A Rust panic (out-of-bounds indexing) is an explicit result constructor,
    never a silently chosen value.
-/

/-- Modelled from the spec: easy_sockets/mod.rs is not among the staged
source files. Per the spec's data model, `ErrorAction = Retry | Drop`
classifies whether an I/O failure is transient or terminal. -/
inductive ErrorAction
  | Retry
  | Drop
deriving DecidableEq, Repr

/-- Modelled from the spec: the `is_drop` test used by SocketEntry::update
(`action.is_drop()`); true exactly on `Drop`. -/
def ErrorAction.is_drop : ErrorAction → Bool
  | .Drop => true
  | .Retry => false

/-- Modelled from the spec: `UpdateResult = Result<(), ErrorAction>`, the
return type of the three buffer update hooks. -/
inductive UpdateResult
  | ok
  | err (action : ErrorAction)
deriving DecidableEq, Repr

/-- Whether an UpdateResult is an error whose action is Drop: the test
`if let Err(action) = r { action.is_drop() }` of SocketEntry::update. -/
def UpdateResult.isDropErr : UpdateResult → Bool
  | .err action => action.is_drop
  | .ok => false

/-- socket_manager.rs: the aggregate of the three hook results built by
SocketEntry::try_update_buffer. -/
structure BufferUpdateResult where
  write_result : UpdateResult
  read_result : UpdateResult
  additional_result : UpdateResult
deriving DecidableEq, Repr

/-- socket_manager.rs: one registered socket. `buffer` embeds the
`Weak<SpinLock<B>>` (some = upgrade succeeds), `socket` the
`Option<S>` live socket handle, `data` the diagnostics, `drop_flag`
the removal flag. -/
structure SocketEntry (B S D : Type) where
  buffer : Option B
  socket : Option S
  data : D
  drop_flag : Bool
deriving DecidableEq, Repr

/-- The Buffer trait dispatch seen by SocketEntry::try_update_buffer: given
the buffer, socket and diagnostics it returns the three hook results plus
the updated buffer, socket and diagnostics, or none when a hook panicked. -/
abbrev BufferOps (B S D : Type) :=
  B → S → D → Option (BufferUpdateResult × B × S × D)

/-- socket_manager.rs, SocketEntry::try_update_buffer: upgrade the weak
buffer reference; if it and the socket are present, run
flush_write_bufs, fill_read_bufs and additional_updates under the lock
and return their results; otherwise return Err(()). The outer `none`
propagates a panic inside a hook. -/
def SocketEntry.try_update_buffer {B S D : Type} (ops : BufferOps B S D)
    (e : SocketEntry B S D) :
    Option (Except Unit (BufferUpdateResult × SocketEntry B S D)) :=
  match e.buffer with
  | some b =>
    match e.socket with
    | some s =>
      match ops b s e.data with
      | some (r, b1, s1, d1) =>
        some (Except.ok (r, { e with buffer := some b1, socket := some s1, data := d1 }))
      | none => none
    | none => some (Except.error ())
  | none => some (Except.error ())

/-- socket_manager.rs, SocketEntry::update: on Ok results, clear the socket
when the write result or the read result is Err(action) with
action.is_drop() (the additional result is never examined by the source);
on Err(()), set the drop flag. The source also computes an
`error_occured` flag that it never reads; it is omitted. -/
def SocketEntry.update {B S D : Type} (ops : BufferOps B S D)
    (e : SocketEntry B S D) : Option (SocketEntry B S D) :=
  match e.try_update_buffer ops with
  | none => none
  | some (Except.ok (r, e1)) =>
    let should_drop_socket := r.write_result.isDropErr || r.read_result.isDropErr
    if should_drop_socket then some { e1 with socket := none } else some e1
  | some (Except.error _) => some { e with drop_flag := true }

/-- socket_manager.rs: the manager, a growable vector of entries
(the source's name, with its typo, is SocketManger). -/
structure SocketManger (B S D : Type) where
  sockets : List (SocketEntry B S D)
deriving DecidableEq, Repr

/-- socket_manager.rs, the task body spawned per entry by
SocketManger::update. The source writes `entrey.update();` without
`.await`: the future is constructed and immediately dropped without ever
being polled, so the entry's state is untouched. The body then keeps the
entry unless its (never-updated-here) drop_flag is set. -/
def SocketManger.updateTaskBody {B S D : Type} (e : SocketEntry B S D) :
    Option (SocketEntry B S D) :=
  if e.drop_flag then none else some e

/-- socket_manager.rs, SocketManger::update: pop every entry off the vector
(back to front), run the task body for each, and push back every entry
whose task returned it. -/
def SocketManger.update {B S D : Type} (m : SocketManger B S D) :
    SocketManger B S D :=
  ⟨m.sockets.reverse.filterMap SocketManger.updateTaskBody⟩

/-- socket_manager.rs, SocketManger::register: build a buffer from the
socket; on success create the entry (weak reference to the new buffer,
the socket, Default::default() diagnostics `d0`, drop_flag false), push
it, and hand the sole strong handle back; on failure return the socket
together with the construction error, touching nothing. -/
def SocketManger.register {B S D E : Type} (build : S → Except E B) (d0 : D)
    (m : SocketManger B S D) (socket : S) :
    Except (S × E) B × SocketManger B S D :=
  match build socket with
  | Except.ok buffer =>
    (Except.ok buffer,
     ⟨m.sockets ++ [{ buffer := some buffer, socket := some socket,
                      data := d0, drop_flag := false }]⟩)
  | Except.error error => (Except.error (socket, error), m)

/-! The concrete stream-socket buffer, net_buffer_types/mod.rs. -/

/-- The io::ErrorKind values distinguished by the source; `Other` stands for
every further kind (its code keeps distinct kinds distinct). -/
inductive IOErrorKind
  | WouldBlock
  | WriteZero
  | ConnectionRefused
  | ConnectionReset
  | ConnectionAborted
  | NotConnected
  | Other (code : Nat)
deriving DecidableEq, Repr

/-- net_buffer_types/mod.rs: TcpStreamTerminalError. Unexpected keeps the
OS error (embedded as its kind). -/
inductive TcpStreamTerminalError
  | NotConnected
  | Reset
  | Unexpected (error : IOErrorKind)
deriving DecidableEq, Repr

/-- net_buffer_types/mod.rs: TcpStreamDiagnostics, per-cycle byte counters. -/
structure TcpStreamDiagnostics where
  written : Nat
  read : Nat
deriving DecidableEq, Repr

/-- The #[derive(Default)] value: both counters zero. -/
def TcpStreamDiagnostics.default : TcpStreamDiagnostics := ⟨0, 0⟩

/-- net_buffer_types/mod.rs: TcpStreamBuffer. The chunk queues
VecDeque<VecDeque<u8>> are lists of byte lists, front first. -/
structure TcpStreamBuffer where
  terminal_error : Option TcpStreamTerminalError
  bytes_read_last : Nat
  incoming : List (List Nat)
  outgoing : List (List Nat)
deriving DecidableEq, Repr

/-- One write_vectored response of the OS socket: the byte count accepted,
or an error of the given kind. -/
inductive WriteOutcome
  | ok (n : Nat)
  | err (kind : IOErrorKind)
deriving DecidableEq, Repr

/-- The read_to_end response of the OS socket for one cycle: the bytes
delivered, or an error of the given kind. -/
inductive ReadOutcome
  | ok (bytes : List Nat)
  | err (kind : IOErrorKind)
deriving DecidableEq, Repr

/-- The OS socket as a deterministic oracle: the scripted write_vectored
responses in order, and the scripted read_to_end response. -/
abbrev TcpSocket := List WriteOutcome × ReadOutcome

/-- net_buffer_types/mod.rs, TcpStreamBuffer::build: always Ok, all fields
empty or zero (the socket argument is unused by the source). -/
def TcpStreamBuffer.build : TcpStreamBuffer :=
  { terminal_error := none, bytes_read_last := 0, incoming := [], outgoing := [] }

/-- net_buffer_types/mod.rs, TcpStreamBuffer::fill_read_bufs: on a
successful read of some bytes, record their count in bytes_read_last and
diagnostics.read and append them as one new chunk at the back of
incoming; on a read error, zero diagnostics.read, set terminal_error to
Unexpected and return Err(Drop). -/
def TcpStreamBuffer.fill_read_bufs (b : TcpStreamBuffer) (outcome : ReadOutcome)
    (d : TcpStreamDiagnostics) :
    UpdateResult × TcpStreamBuffer × TcpStreamDiagnostics :=
  match outcome with
  | ReadOutcome.ok bytes =>
    (UpdateResult.ok,
     { b with bytes_read_last := bytes.length, incoming := b.incoming ++ [bytes] },
     { d with read := bytes.length })
  | ReadOutcome.err kind =>
    (UpdateResult.err ErrorAction.Drop,
     { b with terminal_error := some (TcpStreamTerminalError.Unexpected kind) },
     { d with read := 0 })

/-- What one run of the flush_write_bufs loop produces: a returned
UpdateResult with the final buffer and diagnostics, a panic, or the model
artifact of the oracle's write script running out mid-loop. -/
inductive FlushResult
  | done (result : UpdateResult) (b : TcpStreamBuffer) (d : TcpStreamDiagnostics)
  | panicked
  | outOfScript
deriving DecidableEq, Repr

/-- net_buffer_types/mod.rs, the loop body of TcpStreamBuffer::flush_write_bufs.
Each iteration indexes self.outgoing[0] unconditionally (an empty queue
panics: out-of-bounds) and issues one vectored write over the front
chunk s two sub-slices. Ok(0) returns Ok. Ok(n) adds n to
diagnostics.written, then pops the front chunk when n equals its length,
drains its first n bytes when n is smaller (a larger n makes
drain(0..n) panic), and loops. An error returns Ok for WriteZero, sets
terminal_error NotConnected and returns Err(Drop) for the four
connection kinds, and sets terminal_error Unexpected and returns
Err(Drop) for every other kind. -/
def TcpStreamBuffer.flushLoop (outs : List WriteOutcome) (b : TcpStreamBuffer)
    (d : TcpStreamDiagnostics) : FlushResult :=
  match b.outgoing with
  | [] => FlushResult.panicked
  | front :: rest =>
    match outs with
    | [] => FlushResult.outOfScript
    | WriteOutcome.ok n :: outs1 =>
      if n = 0 then FlushResult.done UpdateResult.ok b d
      else
        let d1 := { d with written := d.written + n }
        if n = front.length then
          TcpStreamBuffer.flushLoop outs1 { b with outgoing := rest } d1
        else if n < front.length then
          TcpStreamBuffer.flushLoop outs1 { b with outgoing := front.drop n :: rest } d1
        else FlushResult.panicked
    | WriteOutcome.err kind :: _ =>
      match kind with
      | IOErrorKind.WriteZero => FlushResult.done UpdateResult.ok b d
      | IOErrorKind.ConnectionRefused
      | IOErrorKind.ConnectionReset
      | IOErrorKind.ConnectionAborted
      | IOErrorKind.NotConnected =>
        FlushResult.done (UpdateResult.err ErrorAction.Drop)
          { b with terminal_error := some TcpStreamTerminalError.NotConnected } d
      | k =>
        FlushResult.done (UpdateResult.err ErrorAction.Drop)
          { b with terminal_error := some (TcpStreamTerminalError.Unexpected k) } d

/-- net_buffer_types/mod.rs, TcpStreamBuffer::flush_write_bufs: zero
diagnostics.written, then run the loop. -/
def TcpStreamBuffer.flush_write_bufs (b : TcpStreamBuffer)
    (outs : List WriteOutcome) (d : TcpStreamDiagnostics) : FlushResult :=
  TcpStreamBuffer.flushLoop outs b { d with written := 0 }

/-- net_buffer_types/mod.rs, TcpStreamBuffer::additional_updates: a stub
that returns Ok(()) and changes nothing. -/
def TcpStreamBuffer.additional_updates : UpdateResult := UpdateResult.ok

/-- The Buffer trait dispatch for TcpStreamBuffer, in the order
try_update_buffer invokes the hooks: flush_write_bufs, then
fill_read_bufs, then additional_updates. A flush panic (or an exhausted
write script) aborts the whole entry update. The oracle scripts describe
the OS responses of this one cycle, so the socket value is returned
unchanged. -/
def tcpOps : BufferOps TcpStreamBuffer TcpSocket TcpStreamDiagnostics :=
  fun b s d =>
    match b.flush_write_bufs s.1 d with
    | FlushResult.done write_result b1 d1 =>
      match b1.fill_read_bufs s.2 d1 with
      | (read_result, b2, d2) =>
        some ({ write_result := write_result, read_result := read_result,
                additional_result := TcpStreamBuffer.additional_updates }, b2, s, d2)
    | FlushResult.panicked => none
    | FlushResult.outOfScript => none

/-! Peek iteration, net_buffer_types/mod.rs. -/

/-- net_buffer_types/mod.rs: the state of PeakIter. inner_iter holds the
not-yet-yielded tail of the current chunk (none before the first chunk
is entered), outer_iter the not-yet-entered chunks. The guard field is a
no-op in this sequential embedding and the iterators borrow the queue
immutably, so the queue itself is untouched by construction. -/
structure PeakIter where
  inner_iter : Option (List Nat)
  outer_iter : List (List Nat)
deriving DecidableEq, Repr

/-- net_buffer_types/mod.rs, PeakIter::new: lock, start the outer iterator
on incoming, inner iterator not yet entered. -/
def PeakIter.new (incoming : List (List Nat)) : PeakIter :=
  { inner_iter := none, outer_iter := incoming }

/-- net_buffer_types/mod.rs, PeakIter::next: yield the next byte of the
current chunk if any; otherwise advance to the next chunk and yield its
first byte; if that chunk is empty, return None with the exhausted inner
iterator installed (the source does not retry further chunks); with no
chunks left, return None. -/
def PeakIter.next (it : PeakIter) : Option Nat × PeakIter :=
  match it.inner_iter with
  | some (byte :: restInner) => (some byte, { it with inner_iter := some restInner })
  | _ =>
    match it.outer_iter with
    | new_vec :: restOuter =>
      match new_vec with
      | byte :: restInner =>
        (some byte, { inner_iter := some restInner, outer_iter := restOuter })
      | [] => (none, { inner_iter := some [], outer_iter := restOuter })
    | [] => (none, it)

/-- Standard iterator consumption (a for loop, collect): call next until it
returns None, gathering the yielded bytes. Fuel bounds the number of
calls; peakCollect supplies enough for any full traversal. -/
def peakCollectFuel : Nat → PeakIter → List Nat
  | 0, _ => []
  | fuel + 1, it =>
    match PeakIter.next it with
    | (some byte, it1) => byte :: peakCollectFuel fuel it1
    | (none, _) => []

/-- The byte sequence peek iteration over a queue yields. -/
def peakCollect (incoming : List (List Nat)) : List Nat :=
  peakCollectFuel (incoming.flatten.length + 1) (PeakIter.new incoming)

/-! The Quinn UDP poller, quic.rs. -/

/-- The observable poll_writable results: Poll::Pending or
Poll::Ready(Ok(())) (the source never constructs Ready(Err)). -/
inductive WritablePoll
  | Pending
  | ReadyOk
deriving DecidableEq, Repr

/-- quic.rs: QuinnPoller, a bool recording whether a poll has already
happened. -/
structure QuinnPoller where
  polled : Bool
deriving DecidableEq, Repr

/-- quic.rs, QuinnUdp::create_io_poller: a fresh QuinnPoller(false). -/
def QuinnUdp.create_io_poller : QuinnPoller := ⟨false⟩

/-- quic.rs, QuinnPoller::poll_writable: if the flag is set return
Ready(Ok(())); otherwise set it, schedule an immediate wake, and return
Pending. -/
def QuinnPoller.poll_writable (p : QuinnPoller) : WritablePoll × QuinnPoller :=
  if p.polled then (WritablePoll.ReadyOk, p)
  else (WritablePoll.Pending, { p with polled := true })

/-- The results of n consecutive poll_writable calls, threading the poller
state. -/
def pollWritableSeq : Nat → QuinnPoller → List WritablePoll
  | 0, _ => []
  | n + 1, p =>
    let (r, p1) := QuinnPoller.poll_writable p
    r :: pollWritableSeq n p1

/-! Theorems settling the claims. -/

/-- Helper: once the QuinnPoller flag is set, every poll returns
Ready(Ok(())) and the flag stays set. -/
theorem pollWritableSeq_polled (n : Nat) :
    pollWritableSeq n ⟨true⟩ = List.replicate n WritablePoll.ReadyOk := by
  induction n with
  | zero => rfl
  | succ k ih =>
    simp [pollWritableSeq, QuinnPoller.poll_writable, List.replicate, ih]

/-- C9: for every poller produced by create_io_poller, a sequence of
poll_writable calls returns Pending on the first call and Ready(Ok(()))
on every later call; once ready it never returns to pending. -/
theorem c9_poll_writable_pending_once_then_ready (n : Nat) :
    pollWritableSeq (n + 1) QuinnUdp.create_io_poller
      = WritablePoll.Pending :: List.replicate n WritablePoll.ReadyOk := by
  simp [pollWritableSeq, QuinnUdp.create_io_poller, QuinnPoller.poll_writable,
    pollWritableSeq_polled]

/-- C10: when fill_read_bufs returns an error, the incoming queue, the
outgoing queue and the bytes_read_last hint are unchanged; only
terminal_error (set to Unexpected with the OS error) and the read
counter (set to 0) change, the written counter included among the
untouched state; and the result is Err(Drop). -/
theorem c10_fill_read_bufs_error_frame (b : TcpStreamBuffer)
    (d : TcpStreamDiagnostics) (kind : IOErrorKind) :
    (b.fill_read_bufs (ReadOutcome.err kind) d).2.1.incoming = b.incoming
    ∧ (b.fill_read_bufs (ReadOutcome.err kind) d).2.1.outgoing = b.outgoing
    ∧ (b.fill_read_bufs (ReadOutcome.err kind) d).2.1.bytes_read_last = b.bytes_read_last
    ∧ (b.fill_read_bufs (ReadOutcome.err kind) d).2.1.terminal_error
        = some (TcpStreamTerminalError.Unexpected kind)
    ∧ (b.fill_read_bufs (ReadOutcome.err kind) d).2.2.read = 0
    ∧ (b.fill_read_bufs (ReadOutcome.err kind) d).2.2.written = d.written
    ∧ (b.fill_read_bufs (ReadOutcome.err kind) d).1 = UpdateResult.err ErrorAction.Drop :=
  ⟨rfl, rfl, rfl, rfl, rfl, rfl, rfl⟩

/-- C7: when buffer construction fails, register returns the original
socket together with the construction error and the manager's entry
collection is exactly as before the call. -/
theorem c7_register_failure_no_entry {B S D E : Type} (build : S → Except E B)
    (d0 : D) (m : SocketManger B S D) (socket : S) (error : E)
    (h : build socket = Except.error error) :
    SocketManger.register build d0 m socket = (Except.error (socket, error), m) := by
  unfold SocketManger.register
  rw [h]

/-- Witness for C7 at a concrete failing build. -/
theorem c7_register_failure_no_entry_witness :
    SocketManger.register (B := Nat) (D := Unit)
        (fun _ : Nat => (Except.error 7 : Except Nat Nat)) () ⟨[]⟩ 5
      = (Except.error (5, 7), ⟨[]⟩) :=
  c7_register_failure_no_entry _ () ⟨[]⟩ 5 7 rfl

/-- An entry whose owner has dropped its OwnedBuffer handle: the weak
reference no longer resolves; the socket is still attached and the drop
flag is clear, as registration left them. -/
def danglingEntry : SocketEntry TcpStreamBuffer TcpSocket TcpStreamDiagnostics :=
  { buffer := none, socket := some ([], ReadOutcome.ok []),
    data := TcpStreamDiagnostics.default, drop_flag := false }

/-- C1, evaluated at the failing input: an entry whose weak buffer
reference is dangling is still in the manager after one update cycle and
after two, because the spawned task constructs the entrey.update() future
without awaiting it, so drop_flag is never set. The third conjunct shows
the slip: had SocketEntry::update actually run, it would have set the
entry's drop flag, which the task body then turns into removal. -/
theorem c1_dangling_entry_never_removed :
    (SocketManger.update ⟨[danglingEntry]⟩).sockets = [danglingEntry]
    ∧ (SocketManger.update (SocketManger.update ⟨[danglingEntry]⟩)).sockets = [danglingEntry]
    ∧ SocketEntry.update tcpOps danglingEntry = some { danglingEntry with drop_flag := true } :=
  ⟨rfl, rfl, rfl⟩

/-- A buffer whose outgoing queue is empty. -/
def emptyOutgoing : TcpStreamBuffer :=
  { terminal_error := none, bytes_read_last := 0, incoming := [], outgoing := [] }

/-- A buffer whose outgoing queue holds one one-byte chunk. -/
def oneByteOutgoing : TcpStreamBuffer :=
  { terminal_error := none, bytes_read_last := 0, incoming := [], outgoing := [[5]] }

/-- C2, evaluated at the failing inputs: flush_write_bufs hits the
out-of-bounds front-chunk indexing both when the outgoing queue is empty
on entry and when the queue becomes empty after the last chunk is fully
consumed (here: one one-byte chunk, fully accepted, then the loop indexes
the now-empty queue before the socket is consulted again). -/
theorem c2_flush_write_bufs_panics_when_queue_empties :
    TcpStreamBuffer.flush_write_bufs emptyOutgoing [] TcpStreamDiagnostics.default
      = FlushResult.panicked
    ∧ TcpStreamBuffer.flush_write_bufs oneByteOutgoing
        [WriteOutcome.ok 1, WriteOutcome.ok 1] TcpStreamDiagnostics.default
      = FlushResult.panicked :=
  ⟨rfl, rfl⟩

/-- A Buffer implementation whose additional_updates hook reports
Err(ErrorAction::Drop) while the write and read hooks succeed. -/
def opsAdditionalDrop : BufferOps Nat Nat Nat :=
  fun b s d =>
    some ({ write_result := UpdateResult.ok, read_result := UpdateResult.ok,
            additional_result := UpdateResult.err ErrorAction.Drop }, b, s, d)

/-- An entry with a live buffer and an attached socket. -/
def liveEntryNat : SocketEntry Nat Nat Nat :=
  { buffer := some 0, socket := some 1, data := 2, drop_flag := false }

/-- C3 counterexample: when only additional_updates returns
Err(ErrorAction::Drop), SocketEntry::update leaves the entry unchanged —
its socket handle is still present, not cleared to None as the claim
states, because the source never examines additional_result. -/
theorem c3_additional_drop_leaves_socket :
    SocketEntry.update opsAdditionalDrop liveEntryNat = some liveEntryNat
    ∧ liveEntryNat.socket = some 1 :=
  ⟨rfl, rfl⟩

/-- C3 amended: in one entry update, if flush_write_bufs or fill_read_bufs
returns Err(ErrorAction::Drop), the socket handle inside the entry is
cleared by the end of that update; the result of additional_updates does
not participate in the decision. -/
theorem c3_amended_write_or_read_drop_clears_socket {B S D : Type}
    (ops : BufferOps B S D) (e e1 : SocketEntry B S D) (r : BufferUpdateResult)
    (htry : e.try_update_buffer ops = some (Except.ok (r, e1)))
    (hdrop : r.write_result.isDropErr = true ∨ r.read_result.isDropErr = true) :
    SocketEntry.update ops e = some { e1 with socket := none } := by
  unfold SocketEntry.update
  rw [htry]
  have h : (r.write_result.isDropErr || r.read_result.isDropErr) = true := by
    rcases hdrop with h | h <;> simp [h]
  simp [h]

/-- A Buffer implementation whose flush_write_bufs hook reports
Err(ErrorAction::Drop) while the other two hooks succeed. -/
def opsWriteDrop : BufferOps Nat Nat Nat :=
  fun b s d =>
    some ({ write_result := UpdateResult.err ErrorAction.Drop,
            read_result := UpdateResult.ok,
            additional_result := UpdateResult.ok }, b, s, d)

/-- Witness for the amended C3 at a concrete entry whose write hook drops. -/
theorem c3_amended_witness :
    SocketEntry.update opsWriteDrop liveEntryNat = some { liveEntryNat with socket := none } :=
  c3_amended_write_or_read_drop_clears_socket opsWriteDrop liveEntryNat liveEntryNat
    { write_result := UpdateResult.err ErrorAction.Drop,
      read_result := UpdateResult.ok, additional_result := UpdateResult.ok }
    rfl (Or.inl rfl)

/-- C4 counterexample: a WouldBlock I/O error is not benign in the source.
On read, fill_read_bufs returns Err(ErrorAction::Drop) and sets
terminal_error to Unexpected(WouldBlock); on write, flush_write_bufs
falls into the catch-all arm and does the same — against the claim that
WouldBlock never drops and never sets terminal_error. -/
theorem c4_would_block_is_not_benign :
    (TcpStreamBuffer.build.fill_read_bufs (ReadOutcome.err IOErrorKind.WouldBlock)
        TcpStreamDiagnostics.default).1 = UpdateResult.err ErrorAction.Drop
    ∧ (TcpStreamBuffer.build.fill_read_bufs (ReadOutcome.err IOErrorKind.WouldBlock)
        TcpStreamDiagnostics.default).2.1.terminal_error
      = some (TcpStreamTerminalError.Unexpected IOErrorKind.WouldBlock)
    ∧ TcpStreamBuffer.flush_write_bufs oneByteOutgoing
        [WriteOutcome.err IOErrorKind.WouldBlock] TcpStreamDiagnostics.default
      = FlushResult.done (UpdateResult.err ErrorAction.Drop)
          { oneByteOutgoing with
            terminal_error := some (TcpStreamTerminalError.Unexpected IOErrorKind.WouldBlock) }
          TcpStreamDiagnostics.default :=
  ⟨rfl, rfl, rfl⟩

/-- C4 amended: a zero-byte acceptance (Ok(0)) and a WriteZero error during
flush_write_bufs are benign — the call returns Ok with the buffer, its
terminal_error included, unchanged; a WouldBlock error surfacing in
flush_write_bufs or fill_read_bufs is instead treated like any other
unexpected error: terminal_error is set to Unexpected and the call
returns Err(ErrorAction::Drop). -/
theorem c4_amended_zero_write_benign_would_block_drops (b : TcpStreamBuffer)
    (d : TcpStreamDiagnostics) (outs : List WriteOutcome) (h : b.outgoing ≠ []) :
    TcpStreamBuffer.flush_write_bufs b (WriteOutcome.ok 0 :: outs) d
      = FlushResult.done UpdateResult.ok b { d with written := 0 }
    ∧ TcpStreamBuffer.flush_write_bufs b (WriteOutcome.err IOErrorKind.WriteZero :: outs) d
      = FlushResult.done UpdateResult.ok b { d with written := 0 }
    ∧ TcpStreamBuffer.flush_write_bufs b (WriteOutcome.err IOErrorKind.WouldBlock :: outs) d
      = FlushResult.done (UpdateResult.err ErrorAction.Drop)
          { b with terminal_error := some (TcpStreamTerminalError.Unexpected IOErrorKind.WouldBlock) }
          { d with written := 0 }
    ∧ b.fill_read_bufs (ReadOutcome.err IOErrorKind.WouldBlock) d
      = (UpdateResult.err ErrorAction.Drop,
         { b with terminal_error := some (TcpStreamTerminalError.Unexpected IOErrorKind.WouldBlock) },
         { d with read := 0 }) := by
  rcases b with ⟨te, brl, inc, outg⟩
  cases outg with
  | nil => exact absurd rfl h
  | cons front rest => exact ⟨rfl, rfl, rfl, rfl⟩

/-- Witness for the amended C4 at a concrete buffer. -/
theorem c4_amended_witness :
    TcpStreamBuffer.flush_write_bufs oneByteOutgoing [WriteOutcome.ok 0]
        TcpStreamDiagnostics.default
      = FlushResult.done UpdateResult.ok oneByteOutgoing
          { TcpStreamDiagnostics.default with written := 0 }
    ∧ TcpStreamBuffer.flush_write_bufs oneByteOutgoing
        [WriteOutcome.err IOErrorKind.WriteZero] TcpStreamDiagnostics.default
      = FlushResult.done UpdateResult.ok oneByteOutgoing
          { TcpStreamDiagnostics.default with written := 0 }
    ∧ TcpStreamBuffer.flush_write_bufs oneByteOutgoing
        [WriteOutcome.err IOErrorKind.WouldBlock] TcpStreamDiagnostics.default
      = FlushResult.done (UpdateResult.err ErrorAction.Drop)
          { oneByteOutgoing with
            terminal_error := some (TcpStreamTerminalError.Unexpected IOErrorKind.WouldBlock) }
          { TcpStreamDiagnostics.default with written := 0 }
    ∧ oneByteOutgoing.fill_read_bufs (ReadOutcome.err IOErrorKind.WouldBlock)
        TcpStreamDiagnostics.default
      = (UpdateResult.err ErrorAction.Drop,
         { oneByteOutgoing with
           terminal_error := some (TcpStreamTerminalError.Unexpected IOErrorKind.WouldBlock) },
         { TcpStreamDiagnostics.default with read := 0 }) :=
  c4_amended_zero_write_benign_would_block_drops oneByteOutgoing
    TcpStreamDiagnostics.default [] (by decide)

/-- C5: a write failing with ConnectionRefused, ConnectionReset,
ConnectionAborted or NotConnected makes flush_write_bufs set
terminal_error to NotConnected and return Err(ErrorAction::Drop); and
when SocketEntry::update processes that result (an entry with a live
buffer and attached socket whose next write fails so), the entry's
socket is absent afterwards. -/
theorem c5_connection_error_drops_socket (b : TcpStreamBuffer)
    (d : TcpStreamDiagnostics) (kind : IOErrorKind) (outs : List WriteOutcome)
    (rOut : ReadOutcome) (hout : b.outgoing ≠ [])
    (hkind : kind = IOErrorKind.ConnectionRefused ∨ kind = IOErrorKind.ConnectionReset
      ∨ kind = IOErrorKind.ConnectionAborted ∨ kind = IOErrorKind.NotConnected) :
    TcpStreamBuffer.flush_write_bufs b (WriteOutcome.err kind :: outs) d
      = FlushResult.done (UpdateResult.err ErrorAction.Drop)
          { b with terminal_error := some TcpStreamTerminalError.NotConnected }
          { d with written := 0 }
    ∧ Option.map SocketEntry.socket
        (SocketEntry.update tcpOps
          { buffer := some b, socket := some (WriteOutcome.err kind :: outs, rOut),
            data := d, drop_flag := false })
      = some none := by
  rcases b with ⟨te, brl, inc, outg⟩
  cases outg with
  | nil => exact absurd rfl hout
  | cons front rest =>
    rcases hkind with h | h | h | h <;> subst h <;> cases rOut <;> exact ⟨rfl, rfl⟩

/-- Witness for C5 at a concrete buffer and a ConnectionReset write error. -/
theorem c5_connection_error_witness :
    TcpStreamBuffer.flush_write_bufs oneByteOutgoing
        [WriteOutcome.err IOErrorKind.ConnectionReset] TcpStreamDiagnostics.default
      = FlushResult.done (UpdateResult.err ErrorAction.Drop)
          { oneByteOutgoing with
            terminal_error := some TcpStreamTerminalError.NotConnected }
          { TcpStreamDiagnostics.default with written := 0 }
    ∧ Option.map SocketEntry.socket
        (SocketEntry.update tcpOps
          { buffer := some oneByteOutgoing,
            socket := some ([WriteOutcome.err IOErrorKind.ConnectionReset], ReadOutcome.ok []),
            data := TcpStreamDiagnostics.default, drop_flag := false })
      = some none :=
  c5_connection_error_drops_socket oneByteOutgoing TcpStreamDiagnostics.default
    IOErrorKind.ConnectionReset [] (ReadOutcome.ok []) (by decide)
    (Or.inr (Or.inl rfl))

/-- Helper: one unfolding of the flush loop on a nonempty queue and a
successful write of n bytes, leaving the branch conditions explicit. -/
theorem flushLoop_cons_ok (n : Nat) (outs1 : List WriteOutcome)
    (te : Option TcpStreamTerminalError) (brl : Nat) (inc : List (List Nat))
    (front : List Nat) (rest : List (List Nat)) (d : TcpStreamDiagnostics) :
    TcpStreamBuffer.flushLoop (WriteOutcome.ok n :: outs1)
        ⟨te, brl, inc, front :: rest⟩ d
      = if n = 0 then
          FlushResult.done UpdateResult.ok ⟨te, brl, inc, front :: rest⟩ d
        else if n = front.length then
          TcpStreamBuffer.flushLoop outs1 ⟨te, brl, inc, rest⟩
            { d with written := d.written + n }
        else if n < front.length then
          TcpStreamBuffer.flushLoop outs1 ⟨te, brl, inc, front.drop n :: rest⟩
            { d with written := d.written + n }
        else FlushResult.panicked := by
  rfl

/-- C6: on an outgoing queue whose front chunk has length n, a vectored
write accepting k bytes with 0 < k ≤ n followed by a benign stop leaves,
when k < n, exactly the last n−k bytes of the front chunk (its drop k,
so in original order) with every later chunk untouched, and, when
k = n, pops the front chunk entirely so no empty chunk is left at the
front. -/
theorem c6_partial_write_drains_front_chunk (te : Option TcpStreamTerminalError)
    (brl : Nat) (inc : List (List Nat)) (front : List Nat)
    (rest : List (List Nat)) (k : Nat) (d : TcpStreamDiagnostics)
    (hk0 : 0 < k) (hkn : k ≤ front.length)
    (hfull : k = front.length → rest ≠ []) :
    TcpStreamBuffer.flush_write_bufs
        { terminal_error := te, bytes_read_last := brl, incoming := inc,
          outgoing := front :: rest }
        [WriteOutcome.ok k, WriteOutcome.ok 0] d
      = FlushResult.done UpdateResult.ok
          { terminal_error := te, bytes_read_last := brl, incoming := inc,
            outgoing := if k = front.length then rest else front.drop k :: rest }
          { d with written := k }
    ∧ (front.drop k).length = front.length - k := by
  refine ⟨?_, by simp⟩
  have hk0' : ¬ k = 0 := Nat.pos_iff_ne_zero.mp hk0
  unfold TcpStreamBuffer.flush_write_bufs
  rw [flushLoop_cons_ok, if_neg hk0']
  by_cases hkf : k = front.length
  · rw [if_pos hkf]
    obtain ⟨r0, rs, hrest⟩ := List.exists_cons_of_ne_nil (hfull hkf)
    subst hrest
    rw [flushLoop_cons_ok, if_pos rfl]
    simp [hkf]
  · rw [if_neg hkf]
    have hlt : k < front.length := lt_of_le_of_ne hkn hkf
    rw [if_pos hlt]
    rcases hdrop : front.drop k with _ | ⟨a, as⟩
    · exfalso
      have h0 : front.length - k = 0 := by
        rw [← List.length_drop, hdrop]
        rfl
      omega
    · rw [flushLoop_cons_ok, if_pos rfl]
      simp [hkf]

/-- Witness for C6: a three-byte front chunk, two bytes accepted, then a
benign stop: one byte remains in front, the later chunk untouched. -/
theorem c6_partial_write_witness :
    TcpStreamBuffer.flush_write_bufs
        { terminal_error := none, bytes_read_last := 0, incoming := [],
          outgoing := [[1, 2, 3], [4]] }
        [WriteOutcome.ok 2, WriteOutcome.ok 0] TcpStreamDiagnostics.default
      = FlushResult.done UpdateResult.ok
          { terminal_error := none, bytes_read_last := 0, incoming := [],
            outgoing :=
              if 2 = ([1, 2, 3] : List Nat).length then [[4]]
              else ([1, 2, 3] : List Nat).drop 2 :: [[4]] }
          { TcpStreamDiagnostics.default with written := 2 }
    ∧ (([1, 2, 3] : List Nat).drop 2).length = ([1, 2, 3] : List Nat).length - 2 :=
  c6_partial_write_drains_front_chunk none 0 [] [1, 2, 3] [[4]] 2
    TcpStreamDiagnostics.default (by decide) (by decide) (by decide)

/-- C8 counterexample: over the queue [[], [1]] the peek iterator's first
next() enters the empty front chunk, finds no byte, and returns None
without trying the later chunk, so iteration yields nothing although the
queue holds the byte 1 — against the claim that every byte of every
chunk is yielded. -/
theorem c8_peek_stops_at_empty_chunk :
    peakCollect [[], [1]] = [] ∧ ([[], [1]] : List (List Nat)).flatten = [1] :=
  ⟨rfl, rfl⟩

/-- Helper: with every remaining chunk nonempty and enough fuel, collecting
from a state holding the current chunk's tail yields that tail followed
by the flattening of the remaining chunks. -/
theorem peakCollectFuel_flatten (fuel : Nat) (chunks : List (List Nat))
    (cur : List Nat) (hne : ∀ c ∈ chunks, c ≠ [])
    (hfuel : cur.length + chunks.flatten.length + 1 ≤ fuel) :
    peakCollectFuel fuel { inner_iter := some cur, outer_iter := chunks }
      = cur ++ chunks.flatten := by
  induction fuel generalizing cur chunks with
  | zero => exact absurd hfuel (by omega)
  | succ n ih =>
    cases cur with
    | cons byte restInner =>
      have hstep : peakCollectFuel (n + 1)
          { inner_iter := some (byte :: restInner), outer_iter := chunks }
          = byte :: peakCollectFuel n
              { inner_iter := some restInner, outer_iter := chunks } := rfl
      rw [hstep, ih chunks restInner hne
        (by simp only [List.length_cons] at hfuel; omega)]
      rfl
    | nil =>
      cases chunks with
      | nil => rfl
      | cons v vs =>
        have hv := hne v (List.mem_cons_self v vs)
        cases v with
        | nil => exact absurd rfl hv
        | cons byte restInner =>
          have hstep : peakCollectFuel (n + 1)
              { inner_iter := some [], outer_iter := (byte :: restInner) :: vs }
              = byte :: peakCollectFuel n
                  { inner_iter := some restInner, outer_iter := vs } := rfl
          rw [hstep, ih vs restInner (fun c hc => hne c (List.mem_cons_of_mem _ hc))
            (by simp only [List.flatten_cons, List.length_append, List.length_cons,
                  List.length_nil] at hfuel ⊢; omega)]
          simp

/-- C8 amended: peek iteration yields every byte of every chunk,
chunk-by-chunk and byte-by-byte in arrival order, provided every chunk
is nonempty (it stops early at the first empty chunk, which a zero-byte
read can enqueue); the queue itself is untouched — the iterator only
reads it. In particular over [[1,2,3],[4,5]] it yields exactly
1,2,3,4,5. -/
theorem c8_amended_peek_yields_flatten :
    (∀ incoming : List (List Nat), (∀ c ∈ incoming, c ≠ []) →
      peakCollect incoming = incoming.flatten)
    ∧ peakCollect [[1, 2, 3], [4, 5]] = [1, 2, 3, 4, 5] := by
  constructor
  · intro incoming hne
    unfold peakCollect
    cases incoming with
    | nil => rfl
    | cons v vs =>
      have hv := hne v (List.mem_cons_self v vs)
      cases v with
      | nil => exact absurd rfl hv
      | cons byte restInner =>
        have hstep : peakCollectFuel (((byte :: restInner) :: vs).flatten.length + 1)
            (PeakIter.new ((byte :: restInner) :: vs))
            = byte :: peakCollectFuel (((byte :: restInner) :: vs).flatten.length)
                { inner_iter := some restInner, outer_iter := vs } := rfl
        rw [hstep, peakCollectFuel_flatten _ vs restInner
          (fun c hc => hne c (List.mem_cons_of_mem _ hc))
          (by simp only [List.flatten_cons, List.length_append, List.length_cons]; omega)]
        simp
  · rfl

/-- Witness for the amended C8 at a concrete all-nonempty queue. -/
theorem c8_amended_witness : peakCollect [[7], [8, 9]] = [7, 8, 9] := by
  have h := c8_amended_peek_yields_flatten.1 [[7], [8, 9]] (by decide)
  simpa using h
